import Mathlib

/-!
Shallow embedding of the client session logic of
src/frontend/static/script.js (the travel-planner frontend script).

Strings are modelled through their character lists.  The JavaScript
string operations used by the script are embedded directly:
message.includes(sub), message.startsWith(pre),
message.replace(pat, repl) (first occurrence only, as the JS string
form of replace does) and value.trim().

The DOM elements the script reads and writes (the progress log, the
option-selection box, the itinerary area, the copy button, the
cluster-selection box and its input field) are modelled as fields of an
explicit ClientState, together with the module level variables ws and
currentMarkdownContent, the list of messages sent over the socket and
a counter of connections opened.  The external markdown renderer
(marked.parse) is an arbitrary parameter function.
-/

namespace TravelPlanner

/-- JS String.includes on character lists: true when needle occurs as a
contiguous run somewhere in the haystack. -/
def containsSub (needle : List Char) : List Char → Bool
  | [] => needle.isPrefixOf ([] : List Char)
  | c :: t => needle.isPrefixOf (c :: t) || containsSub needle t

/-- JS message.includes(sub). -/
def strIncludes (s sub : String) : Bool :=
  containsSub sub.data s.data

/-- JS message.startsWith(pre). -/
def strStartsWithJS (s pre : String) : Bool :=
  pre.data.isPrefixOf s.data

/-- JS String.replace with a string pattern: replaces only the first
occurrence of needle, leaves the string unchanged when needle does not
occur. -/
def replaceFirstList (needle repl : List Char) : List Char → List Char
  | [] => if needle.isPrefixOf ([] : List Char) then repl else []
  | c :: t =>
      if needle.isPrefixOf (c :: t) then repl ++ (c :: t).drop needle.length
      else c :: replaceFirstList needle repl t

/-- JS s.replace(needle, repl), first occurrence only. -/
def strReplaceFirst (s needle repl : String) : String :=
  String.mk (replaceFirstList needle.data repl.data s.data)

/-- JS value.trim(): strip leading and trailing whitespace. -/
def trimList (l : List Char) : List Char :=
  ((l.dropWhile Char.isWhitespace).reverse.dropWhile Char.isWhitespace).reverse

/-- JS s.trim(). -/
def strTrimJS (s : String) : String :=
  String.mk (trimList s.data)

/-- The terminal sentinel tested by message.startsWith in ws.onmessage. -/
def terminalSentinel : String := "Itinerary generated successfully!"

/-- The prompt marker tested by message.includes in ws.onmessage. -/
def promptSubstring : String :=
  "Please review the options and select the correct option"

/-- Observable client state: the module level variables of script.js and
the DOM elements it manipulates, plus the outbound transport record. -/
structure ClientState where
  /-- whether the module variable ws has been assigned a socket object -/
  wsSet : Bool
  /-- module variable currentMarkdownContent; empty string means unset -/
  currentMarkdownContent : String
  /-- children of the progress div, in append order -/
  progressLog : List String
  /-- display of the option-selection div (the pending-selection flag) -/
  optionSelectionVisible : Bool
  /-- display of the cluster-selection div -/
  clusterSelectionVisible : Bool
  /-- value of the cluster-input field -/
  clusterInputValue : String
  /-- innerHTML of the itinerary div -/
  itineraryHTML : String
  /-- display of the copy button -/
  copyButtonVisible : Bool
  /-- messages sent to the server over the socket, in order -/
  outboundSent : List String
  /-- number of WebSocket connections opened so far -/
  connectionsOpened : Nat
  deriving DecidableEq

/-- The state before any interaction: no socket, everything empty. -/
def initialState : ClientState :=
  { wsSet := false
    currentMarkdownContent := ""
    progressLog := []
    optionSelectionVisible := false
    clusterSelectionVisible := false
    clusterInputValue := ""
    itineraryHTML := ""
    copyButtonVisible := false
    outboundSent := []
    connectionsOpened := 0 }

/-- validateInputs from script.js: trims the two fields, rejects an empty
destination first, then an empty travel date.  The result carries the
alert message of the failure; none means valid. -/
def validateInputs (destination travelDate : String) : Option String :=
  if strTrimJS destination = "" then some "Please enter a destination"
  else if strTrimJS travelDate = "" then some "Please enter a travel date"
  else none

/-- startPlanning from script.js: on invalid input it returns before
touching anything; on valid input it clears the progress div, the
itinerary div, hides the option-selection div and the copy button,
resets currentMarkdownContent, then opens a new WebSocket.  The second
component reports the validation failure message. -/
def startPlanning (destination travelDate : String) (s : ClientState) :
    ClientState × Option String :=
  match validateInputs destination travelDate with
  | some e => (s, some e)
  | none =>
      ({ s with
          progressLog := []
          itineraryHTML := ""
          optionSelectionVisible := false
          copyButtonVisible := false
          currentMarkdownContent := ""
          wsSet := true
          connectionsOpened := s.connectionsOpened + 1 }, none)

/-- The ws.onmessage handler from script.js.  First, when the message
includes the prompt marker, the option-selection div is shown.  Then,
when it starts with the terminal sentinel, the sentinel is stripped
(first occurrence replace), trimmed, stored in currentMarkdownContent,
rendered into the itinerary div through marked.parse, and the copy
button is shown; otherwise the message is appended verbatim to the
progress div. -/
def onMessage (marked : String → String) (s : ClientState)
    (message : String) : ClientState :=
  let s1 := if strIncludes message promptSubstring then
              { s with optionSelectionVisible := true }
            else s
  if strStartsWithJS message terminalSentinel then
    let payload := strTrimJS (strReplaceFirst message terminalSentinel "")
    { s1 with
        currentMarkdownContent := payload
        itineraryHTML := marked payload
        copyButtonVisible := true }
  else
    { s1 with progressLog := s1.progressLog ++ [message] }

/-- submitClusterSelection from script.js: reads the cluster-input
value; when the ws variable is set and the value is nonempty, sends the
value over the socket, hides the cluster-selection div and clears the
input; otherwise does nothing. -/
def submitClusterSelection (s : ClientState) : ClientState :=
  if s.wsSet = true ∧ s.clusterInputValue ≠ "" then
    { s with
        outboundSent := s.outboundSent ++ [s.clusterInputValue]
        clusterSelectionVisible := false
        clusterInputValue := "" }
  else s

/-- The classification of one inbound line as a pure function of the
line alone: the first component is the prompt test, the second is the
terminal payload when the line starts with the sentinel, none for a
progress line. -/
def classify (L : String) : Bool × Option String :=
  (strIncludes L promptSubstring,
   if strStartsWithJS L terminalSentinel then
     some (strTrimJS (strReplaceFirst L terminalSentinel ""))
   else none)

/-- Application of a classification result to the state, separated from
the classification itself. -/
def applyClassification (marked : String → String) (L : String)
    (c : Bool × Option String) (s : ClientState) : ClientState :=
  let s1 := if c.1 then { s with optionSelectionVisible := true } else s
  match c.2 with
  | some payload =>
      { s1 with
          currentMarkdownContent := payload
          itineraryHTML := marked payload
          copyButtonVisible := true }
  | none => { s1 with progressLog := s1.progressLog ++ [L] }

theorem replaceFirst_list_drop (needle hay : List Char)
    (h : needle.isPrefixOf hay = true) :
    replaceFirstList needle [] hay = List.drop needle.length hay := by
  cases hay with
  | nil => simp [replaceFirstList, h]
  | cons c t => simp [replaceFirstList, h]

/-- Claim C1: an inbound line is classified Terminal exactly when it
starts with the sentinel at position zero; in that case the stored
finalContent is the remainder of the line after the sentinel, trimmed;
a line where the sentinel occurs elsewhere is not Terminal and leaves
the stored content untouched. -/
theorem C1_terminal_prefix_anchored (marked : String → String)
    (s : ClientState) (L : String) :
    ((classify L).2.isSome = strStartsWithJS L terminalSentinel) ∧
    (strStartsWithJS L terminalSentinel = true →
      (onMessage marked s L).currentMarkdownContent
        = strTrimJS (String.mk (L.data.drop terminalSentinel.length))) ∧
    (strStartsWithJS L terminalSentinel = false →
      (onMessage marked s L).currentMarkdownContent
        = s.currentMarkdownContent) := by
  refine ⟨?_, ?_, ?_⟩
  · cases ht : strStartsWithJS L terminalSentinel <;> simp [classify, ht]
  · intro ht
    have h0 : ("" : String).data = ([] : List Char) := rfl
    have hd : strReplaceFirst L terminalSentinel ""
        = String.mk (List.drop terminalSentinel.length L.data) := by
      unfold strReplaceFirst
      rw [h0, replaceFirst_list_drop _ _ ht]
      rfl
    cases hp : strIncludes L promptSubstring <;>
      simp [onMessage, hp, ht, hd]
  · intro ht
    cases hp : strIncludes L promptSubstring <;>
      simp [onMessage, hp, ht]

theorem C1_witness :
    (onMessage (fun x => x) initialState
        "Itinerary generated successfully!ABC").currentMarkdownContent
      = strTrimJS (String.mk
          (("Itinerary generated successfully!ABC").data.drop
            terminalSentinel.length)) :=
  (C1_terminal_prefix_anchored (fun x => x) initialState
    "Itinerary generated successfully!ABC").2.1 (by decide)

/-- Claim C7: a line that contains the prompt marker anywhere but does
not start with the terminal sentinel both raises the pending-selection
flag and is appended to the progress log as an ordinary line. -/
theorem C7_prompt_substring (marked : String → String) (s : ClientState)
    (L : String)
    (hp : strIncludes L promptSubstring = true)
    (ht : strStartsWithJS L terminalSentinel = false) :
    (onMessage marked s L).optionSelectionVisible = true ∧
    (onMessage marked s L).progressLog = s.progressLog ++ [L] := by
  simp [onMessage, hp, ht]

theorem C7_witness :
    (onMessage (fun x => x) initialState
        "note: Please review the options and select the correct option now").optionSelectionVisible
      = true ∧
    (onMessage (fun x => x) initialState
        "note: Please review the options and select the correct option now").progressLog
      = initialState.progressLog ++
          ["note: Please review the options and select the correct option now"] :=
  C7_prompt_substring (fun x => x) initialState
    "note: Please review the options and select the correct option now"
    (by decide) (by decide)

/-- Claim C8: a line matching neither pattern is handled totally, as
Progress: the whole effect is appending the line verbatim to the log,
nothing else changes and there is no rejection path. -/
theorem C8_progress_total (marked : String → String) (s : ClientState)
    (L : String)
    (ht : strStartsWithJS L terminalSentinel = false)
    (hp : strIncludes L promptSubstring = false) :
    onMessage marked s L = { s with progressLog := s.progressLog ++ [L] } := by
  simp [onMessage, hp, ht]

theorem C8_witness :
    onMessage (fun x => x) initialState "Searching flights..."
      = { initialState with
            progressLog := initialState.progressLog ++ ["Searching flights..."] } :=
  C8_progress_total (fun x => x) initialState "Searching flights..."
    (by decide) (by decide)

/-- Claim C9: classification is a pure function of the message text
alone: onMessage factors as the state-independent classify followed by
applyClassification, so the tag and payload of a line are the same at
any two points of any session and classification itself performs no
state mutation. -/
theorem C9_classification_pure (marked : String → String) (s : ClientState)
    (L : String) :
    onMessage marked s L = applyClassification marked L (classify L) s := by
  cases hp : strIncludes L promptSubstring <;>
    cases ht : strStartsWithJS L terminalSentinel <;>
      simp [onMessage, applyClassification, classify, hp, ht]

/-- A state reached by a successful start: socket open, everything
cleared. -/
def planningState : ClientState :=
  (startPlanning "Paris" "2024-06-01" initialState).1

/-- A line that starts with the terminal sentinel and also contains the
prompt marker. -/
def bothPatternsLine : String :=
  "Itinerary generated successfully! Please review the options and select the correct option"

/-- Claim C2 as stated is false: on a line that starts with the
terminal sentinel and contains the prompt marker, ws.onmessage runs the
prompt test first and unconditionally, so the pending-selection flag is
raised as well. -/
theorem C2_counterexample :
    strStartsWithJS bothPatternsLine terminalSentinel = true ∧
    strIncludes bothPatternsLine promptSubstring = true ∧
    planningState.optionSelectionVisible = false ∧
    (onMessage (fun x => x) planningState bothPatternsLine).optionSelectionVisible
      = true := by
  refine ⟨by decide, by decide, by decide, ?_⟩
  decide

/-- Claim C2 amended: on a line satisfying both patterns the Terminal
effect applies (finalContent is set to the stripped trimmed payload)
and the Terminal branch takes precedence over the Progress branch (the
line is not appended to the log), but the Prompt effect also fires: the
pending-selection flag is raised. -/
theorem C2_terminal_over_progress_only (marked : String → String)
    (s : ClientState) (L : String)
    (ht : strStartsWithJS L terminalSentinel = true)
    (hp : strIncludes L promptSubstring = true) :
    (onMessage marked s L).currentMarkdownContent
      = strTrimJS (strReplaceFirst L terminalSentinel "") ∧
    (onMessage marked s L).progressLog = s.progressLog ∧
    (onMessage marked s L).optionSelectionVisible = true := by
  simp [onMessage, hp, ht]

theorem C2_witness :
    (onMessage (fun x => x) planningState bothPatternsLine).currentMarkdownContent
      = strTrimJS (strReplaceFirst bothPatternsLine terminalSentinel "") ∧
    (onMessage (fun x => x) planningState bothPatternsLine).progressLog
      = planningState.progressLog ∧
    (onMessage (fun x => x) planningState bothPatternsLine).optionSelectionVisible
      = true :=
  C2_terminal_over_progress_only (fun x => x) planningState bothPatternsLine
    (by decide) (by decide)

/-- A state with the socket open, a nonempty selection input, and the
pending-selection flag down: the session is not awaiting a selection. -/
def notAwaitingState : ClientState :=
  { wsSet := true
    currentMarkdownContent := ""
    progressLog := []
    optionSelectionVisible := false
    clusterSelectionVisible := false
    clusterInputValue := "1"
    itineraryHTML := ""
    copyButtonVisible := false
    outboundSent := []
    connectionsOpened := 1 }

/-- Claim C3 as stated is false: submitClusterSelection never consults
the pending-selection state; with the socket open and a nonempty input
it sends even though the session is not awaiting a selection. -/
theorem C3_counterexample :
    notAwaitingState.optionSelectionVisible = false ∧
    notAwaitingState.outboundSent = [] ∧
    (submitClusterSelection notAwaitingState).outboundSent = ["1"] := by
  refine ⟨by decide, by decide, ?_⟩
  decide

/-- Claim C3 amended: submitClusterSelection is a no-op exactly when no
socket object exists or the selection input is empty; otherwise it
sends the input text, hides the cluster-selection box and clears the
input, regardless of whether the session is awaiting a selection. -/
theorem C3_noop_gate_is_ws_and_text :
    (∀ s : ClientState, s.wsSet = false → submitClusterSelection s = s) ∧
    (∀ s : ClientState, s.clusterInputValue = "" →
        submitClusterSelection s = s) ∧
    (∀ s : ClientState, s.wsSet = true → s.clusterInputValue ≠ "" →
        (submitClusterSelection s).outboundSent
            = s.outboundSent ++ [s.clusterInputValue] ∧
        (submitClusterSelection s).clusterSelectionVisible = false ∧
        (submitClusterSelection s).clusterInputValue = "" ∧
        (submitClusterSelection s).optionSelectionVisible
            = s.optionSelectionVisible) := by
  refine ⟨?_, ?_, ?_⟩
  · intro s h
    simp [submitClusterSelection, h]
  · intro s h
    simp [submitClusterSelection, h]
  · intro s hw hc
    simp [submitClusterSelection, hw, hc]

theorem C3_witness :
    (submitClusterSelection notAwaitingState).outboundSent
        = notAwaitingState.outboundSent ++ [notAwaitingState.clusterInputValue] ∧
    (submitClusterSelection notAwaitingState).clusterSelectionVisible = false ∧
    (submitClusterSelection notAwaitingState).clusterInputValue = "" ∧
    (submitClusterSelection notAwaitingState).optionSelectionVisible
        = notAwaitingState.optionSelectionVisible :=
  C3_noop_gate_is_ws_and_text.2.2 notAwaitingState (by decide) (by decide)

/-- A terminal line and the state after it has been delivered. -/
def terminalLine : String := "Itinerary generated successfully! # Trip"

def afterTerminalState : ClientState :=
  onMessage (fun x => x) planningState terminalLine

/-- Claim C4 as stated is false: after a Terminal line has been
delivered, a later inbound line is still processed and appended to the
log, so inbound processing does not stop. -/
theorem C4_counterexample :
    strStartsWithJS terminalLine terminalSentinel = true ∧
    afterTerminalState.progressLog = [] ∧
    (onMessage (fun x => x) afterTerminalState "post").progressLog
      = ["post"] := by
  refine ⟨by decide, by decide, ?_⟩
  decide

/-- Claim C4 amended: after a Terminal line is delivered, finalContent
equals the trimmed stripped payload, but processing does not stop: a
later non-terminal line is still appended to the log and a later
terminal line overwrites finalContent. -/
theorem C4_no_completed_latch (marked : String → String) (s : ClientState)
    (L M : String)
    (hL : strStartsWithJS L terminalSentinel = true) :
    (onMessage marked s L).currentMarkdownContent
        = strTrimJS (strReplaceFirst L terminalSentinel "") ∧
    (strStartsWithJS M terminalSentinel = false →
        (onMessage marked (onMessage marked s L) M).progressLog
          = (onMessage marked s L).progressLog ++ [M]) ∧
    (strStartsWithJS M terminalSentinel = true →
        (onMessage marked (onMessage marked s L) M).currentMarkdownContent
          = strTrimJS (strReplaceFirst M terminalSentinel "")) := by
  refine ⟨?_, ?_, ?_⟩
  · cases hp : strIncludes L promptSubstring <;> simp [onMessage, hp, hL]
  · intro hM
    cases hp : strIncludes M promptSubstring <;> simp [onMessage, hp, hM]
  · intro hM
    cases hp : strIncludes M promptSubstring <;> simp [onMessage, hp, hM]

theorem C4_witness :
    (onMessage (fun x => x) planningState terminalLine).currentMarkdownContent
        = strTrimJS (strReplaceFirst terminalLine terminalSentinel "") ∧
    (onMessage (fun x => x) (onMessage (fun x => x) planningState terminalLine)
        "post").progressLog
      = (onMessage (fun x => x) planningState terminalLine).progressLog
          ++ ["post"] :=
  ⟨(C4_no_completed_latch (fun x => x) planningState terminalLine "post"
      (by decide)).1,
   (C4_no_completed_latch (fun x => x) planningState terminalLine "post"
      (by decide)).2.1 (by decide)⟩

/-- Claim C5: when the destination or the travel date is empty or
whitespace-only, startPlanning reports the validation failure
synchronously and returns with the state exactly as it was: no socket
is opened, nothing is cleared, and there is no transport side effect. -/
theorem C5_validation_blocks_connection (destination travelDate : String)
    (s : ClientState)
    (h : strTrimJS destination = "" ∨ strTrimJS travelDate = "") :
    (startPlanning destination travelDate s).2.isSome = true ∧
    (startPlanning destination travelDate s).1 = s := by
  rcases h with h | h
  · simp [startPlanning, validateInputs, h]
  · by_cases hd : strTrimJS destination = "" <;>
      simp [startPlanning, validateInputs, hd, h]

theorem C5_witness :
    (startPlanning "   " "2024-06-01" initialState).2.isSome = true ∧
    (startPlanning "   " "2024-06-01" initialState).1 = initialState :=
  C5_validation_blocks_connection "   " "2024-06-01" initialState
    (Or.inl (by decide))

/-- Claim C6: a successful startPlanning call resets the session fully,
whatever the prior history: the log is cleared, finalContent is unset,
the pending-selection flag is lowered, the itinerary area and copy
button are cleared, and a fresh connection is opened. -/
theorem C6_start_resets_session (destination travelDate : String)
    (s : ClientState) (h : validateInputs destination travelDate = none) :
    (startPlanning destination travelDate s).1.progressLog = [] ∧
    (startPlanning destination travelDate s).1.currentMarkdownContent = "" ∧
    (startPlanning destination travelDate s).1.optionSelectionVisible = false ∧
    (startPlanning destination travelDate s).1.itineraryHTML = "" ∧
    (startPlanning destination travelDate s).1.copyButtonVisible = false ∧
    (startPlanning destination travelDate s).1.wsSet = true ∧
    (startPlanning destination travelDate s).1.connectionsOpened
        = s.connectionsOpened + 1 ∧
    (startPlanning destination travelDate s).2 = none := by
  simp [startPlanning, h]

theorem C6_witness :
    (startPlanning "Paris" "2024-06-01" afterTerminalState).1.progressLog = [] ∧
    (startPlanning "Paris" "2024-06-01" afterTerminalState).1.currentMarkdownContent
        = "" ∧
    (startPlanning "Paris" "2024-06-01" afterTerminalState).1.optionSelectionVisible
        = false ∧
    (startPlanning "Paris" "2024-06-01" afterTerminalState).1.itineraryHTML = "" ∧
    (startPlanning "Paris" "2024-06-01" afterTerminalState).1.copyButtonVisible
        = false ∧
    (startPlanning "Paris" "2024-06-01" afterTerminalState).1.wsSet = true ∧
    (startPlanning "Paris" "2024-06-01" afterTerminalState).1.connectionsOpened
        = afterTerminalState.connectionsOpened + 1 ∧
    (startPlanning "Paris" "2024-06-01" afterTerminalState).2 = none :=
  C6_start_resets_session "Paris" "2024-06-01" afterTerminalState (by decide)

/-- Claim C10: when the selection input is empty, submitClusterSelection
does nothing at all: no outbound send and no change to any UI state,
even while a prompt is outstanding. -/
theorem C10_empty_selection_dropped (s : ClientState)
    (h : s.clusterInputValue = "") :
    submitClusterSelection s = s := by
  simp [submitClusterSelection, h]

/-- A state with a prompt outstanding and an empty selection input. -/
def awaitingEmptyInputState : ClientState :=
  { notAwaitingState with
      optionSelectionVisible := true
      clusterSelectionVisible := true
      clusterInputValue := "" }

theorem C10_witness :
    submitClusterSelection awaitingEmptyInputState = awaitingEmptyInputState :=
  C10_empty_selection_dropped awaitingEmptyInputState (by decide)

end TravelPlanner
